import Mathlib

/-!
Shallow embedding of `lingvo/core/tpu_embedding_layers.py` and the
`RandomChoicePreprocessor` behaviour exercised by
`lingvo/tasks/car/input_preprocessors_test.py`, with theorems checking the
natural-language specification against the code.
-/

namespace Lingvo

/-! ### Basic data model: shapes, initializers, variables, ops -/

/-- A tensor shape, as a list of dimension sizes. -/
abbrev Shape := List Nat

/-- Variable initializer specification (`py_utils.WeightParams.init`).
`paramsInit` stands for the layer's `p.params_init`; `constant c` is
`py_utils.WeightInit.Constant(c)`. -/
inductive InitSpec where
  | paramsInit
  | constant (value : ℚ)
  deriving DecidableEq, Repr

/-- A created TF variable, as far as this layer observes it: its name, shape,
initializer, placement device and trainability. -/
structure Variable where
  name : String
  shape : Shape
  init : InitSpec
  device : Option String
  trainable : Bool
  deriving DecidableEq, Repr

/-- The kind of a TPU-embedding load/retrieve op created by the optimizers. -/
inductive OpKind where
  | loadSgd
  | retrieveSgd
  | loadAdagrad
  | retrieveAdagrad
  deriving DecidableEq, Repr

/-- A TPU-embedding load/retrieve op, recording the arguments the code passes
to `tpu_embedding_lib.tpu_ops`. -/
structure Op where
  kind : OpKind
  tableName : String
  numShards : Nat
  shardId : Nat
  deriving DecidableEq, Repr

/-! ### TPUEmbeddingTable: sharding math (`__init__`, lines 264-265) -/

/-- `self._ids_per_shard = int(math.ceil(float(p.vocab_size) / p.num_tpu_hosts))`
(`TPUEmbeddingTable.__init__`); the ceiling division is expressed exactly over
naturals. -/
def idsPerShard (vocabSize numTpuHosts : Nat) : Nat :=
  (vocabSize + numTpuHosts - 1) / numTpuHosts

/-- `self._padded_vocab_size = self._ids_per_shard * p.num_tpu_hosts`
(`TPUEmbeddingTable.__init__`). -/
def paddedVocabSize (vocabSize numTpuHosts : Nat) : Nat :=
  idsPerShard vocabSize numTpuHosts * numTpuHosts

/-- `TPUEmbeddingTable.GetDeviceName`: `None` when evaluating, otherwise
`'{worker}/replica:0/task:{host_id}/device:CPU:0'`. -/
def GetDeviceName (doEval : Bool) (workerName : String) (hostId : Nat) :
    Option String :=
  if doEval then none
  else some (workerName ++ "/replica:0/task:" ++ toString hostId ++
    "/device:CPU:0")

/-- `TPUEmbeddingTable.GetVariableName`: `'var_%d' % host_id`. -/
def GetVariableName (hostId : Nat) : String :=
  "var_" ++ toString hostId

/-- The embedding shard variables created by
`TPUEmbeddingTable._CreateLayerVariables`: one variable per host `i` in
`range(p.num_tpu_hosts)`, with shape `[self._ids_per_shard, p.embedding_dim]`,
initializer `p.params_init`, on device `GetDeviceName(i)`. -/
def tableCreateLayerVariables (doEval : Bool) (workerName : String)
    (vocabSize embeddingDim numTpuHosts : Nat) : List Variable :=
  (List.range numTpuHosts).map fun i =>
    { name := GetVariableName i
      shape := [idsPerShard vocabSize numTpuHosts, embeddingDim]
      init := InitSpec.paramsInit
      device := GetDeviceName doEval workerName i
      trainable := true }

/-! ### TPUEmbeddingTable: construction-time assertions (`__init__`) -/

/-- Python truthiness of `p.max_sequence_length` (an optional integer):
`None` and `0` are falsy, everything else is truthy. -/
def optionIntTruthy : Option Int → Bool
  | none => false
  | some m => m != 0

/-- Parameters of `TPUEmbeddingTable` relevant to its `__init__` assertions. -/
structure TableParams where
  vocabSize : Nat
  embeddingDim : Nat
  inputKeys : List String
  name : String
  combiner : Option String
  maxSequenceLength : Option Int
  numTpuHosts : Nat
  deriving DecidableEq, Repr

/-- The assertion block of `TPUEmbeddingTable.__init__` (lines 254-262):
construction succeeds exactly when all asserts pass.  Note the code never
inspects the string value of `p.combiner`; only `None`-ness matters. -/
def tableInitSucceeds (p : TableParams) : Bool :=
  decide (0 < p.vocabSize) && decide (0 < p.embeddingDim) &&
    !p.inputKeys.isEmpty && !(p.name == "") && decide (0 < p.numTpuHosts) &&
    (if p.combiner.isNone then optionIntTruthy p.maxSequenceLength else true) &&
    (match p.maxSequenceLength with
     | some m => if 0 < m then p.combiner.isNone else true
     | none => true)

/-- `self._max_sequence_length`: `0`, overwritten by `p.max_sequence_length`
when that is truthy. -/
def maxSequenceLengthAttr (p : TableParams) : Int :=
  if optionIntTruthy p.maxSequenceLength then p.maxSequenceLength.getD 0 else 0

/-! ### Optimizers: `CreateSlotVariablesAndOps` -/

/-- Result type of `_TPUEmbeddingOptimizer.CreateSlotVariablesAndOps` as
observed by a caller: either the documented pair of load/retrieve op lists, or
the `NotImplementedError()` *value* that the base class returns (it is
returned, not raised). -/
inductive SlotOpsResult where
  | ops (loadOps retrieveOps : List Op)
  | notImplementedError
  deriving DecidableEq, Repr

/-- `_TPUEmbeddingOptimizer.CreateSlotVariablesAndOps` (the base class): its
body is `return NotImplementedError()`, which terminates normally and hands
the error object back as the return value. -/
def baseCreateSlotVariablesAndOps (tableVars : List Variable) : SlotOpsResult :=
  let _ := tableVars
  SlotOpsResult.notImplementedError

/-- `TPUEmbeddingSGDOptimizer.CreateSlotVariablesAndOps`: iterates
`zip(range(num_tpu_hosts), table_vars)`; per pair, when `py_utils.use_tpu()`
it appends one load op and one retrieve op; it creates no slot variables.
Returns (load op list, retrieve op list, created slot variables). -/
def sgdCreateSlotVariablesAndOps (useTpu : Bool) (numTpuHosts : Nat)
    (tableName : String) (tableVars : List Variable) :
    List Op × List Op × List Variable :=
  let pairs := (List.range numTpuHosts).zip tableVars
  let loadOps := if useTpu then
      pairs.map fun hv =>
        { kind := OpKind.loadSgd, tableName := tableName,
          numShards := numTpuHosts, shardId := hv.1 }
    else []
  let retrieveOps := if useTpu then
      pairs.map fun hv =>
        { kind := OpKind.retrieveSgd, tableName := tableName,
          numShards := numTpuHosts, shardId := hv.1 }
    else []
  (loadOps, retrieveOps, [])

/-- Default of `TPUEmbeddingAdagradOptimizer.Params().initial_accumulator`. -/
def adagradInitialAccumulatorDefault : ℚ := 1 / 10

/-- The Adagrad accumulator slot variable created for one `(host_id,
table_var)` pair by `TPUEmbeddingAdagradOptimizer.CreateSlotVariablesAndOps`:
named `'%s/Adagrad' % GetVariableName(host_id)`, with the table shard's shape,
constant initializer `p.initial_accumulator`, on `GetDeviceName(host_id)`,
not trainable. -/
def adagradSlotVariable (doEval : Bool) (workerName : String)
    (initialAccumulator : ℚ) (hostId : Nat) (tableVar : Variable) : Variable :=
  { name := GetVariableName hostId ++ "/Adagrad"
    shape := tableVar.shape
    init := InitSpec.constant initialAccumulator
    device := GetDeviceName doEval workerName hostId
    trainable := false }

/-- `TPUEmbeddingAdagradOptimizer.CreateSlotVariablesAndOps`: iterates
`zip(range(num_tpu_hosts), table_vars)`; per pair it always creates one
accumulator slot variable, and when `py_utils.use_tpu()` additionally appends
one load op and one retrieve op.  Returns (load op list, retrieve op list,
created slot variables). -/
def adagradCreateSlotVariablesAndOps (useTpu doEval : Bool)
    (workerName : String) (initialAccumulator : ℚ) (numTpuHosts : Nat)
    (tableName : String) (tableVars : List Variable) :
    List Op × List Op × List Variable :=
  let pairs := (List.range numTpuHosts).zip tableVars
  let slotVars := pairs.map fun hv =>
    adagradSlotVariable doEval workerName initialAccumulator hv.1 hv.2
  let loadOps := if useTpu then
      pairs.map fun hv =>
        { kind := OpKind.loadAdagrad, tableName := tableName,
          numShards := numTpuHosts, shardId := hv.1 }
    else []
  let retrieveOps := if useTpu then
      pairs.map fun hv =>
        { kind := OpKind.retrieveAdagrad, tableName := tableName,
          numShards := numTpuHosts, shardId := hv.1 }
    else []
  (loadOps, retrieveOps, slotVars)

/-! ### TPUEmbeddingLayer.__init__: optimizer parameter propagation -/

/-- The optimizer-propagation step of `TPUEmbeddingLayer.__init__`
(lines 456-467), generic in the type `α` of optimizer parameter objects.
`layerOptimizer = none` models a falsy `p.optimizer`; each table's
`optimizer` field is an `Option α`.  Raising `ValueError` is `Except.error`;
on success the (possibly updated) table optimizer fields are returned. -/
def layerInitOptimizers {α : Type} (layerOptimizer : Option α)
    (tableOptimizers : List (Option α)) : Except String (List (Option α)) :=
  let tableOptimizerMissing := tableOptimizers.any Option.isNone
  if layerOptimizer.isNone && tableOptimizerMissing then
    Except.error ("A table is missing optimizer parameters, and no " ++
      "layer-level optimizer parameters were given.")
  else if tableOptimizerMissing then
    Except.ok (tableOptimizers.map fun t =>
      match t with
      | none => layerOptimizer
      | some o => some o)
  else
    Except.ok tableOptimizers

/-! ### TPUEmbeddingLayer._CreateLayerVariables: collection registration -/

/-- The slice of a `TPUEmbeddingTable` that `TPUEmbeddingLayer` reads when
registering collections: its name and its load/retrieve op lists. -/
structure TableState where
  tableName : String
  loadOpList : List Op
  retrieveOpList : List Op
  deriving DecidableEq, Repr

/-- A `tpu_embedding_lib.TPUEmbedding` API object, identified by the table
configuration it was constructed from. -/
structure TpuEmbeddingApi where
  tableNames : List String
  deriving DecidableEq, Repr

/-- Construction of a fresh `TPUEmbedding` API object from the tables
(`tpu_embedding_lib.TPUEmbedding(table_to_config_dict, ...)`). -/
def newTpuEmbeddingApi (tables : List TableState) : TpuEmbeddingApi :=
  { tableNames := tables.map TableState.tableName }

/-- The graph collections `TPUEmbeddingLayer._CreateLayerVariables` touches:
`TPU_EMBEDDING_LOAD_OPS`, `TPU_EMBEDDING_RETRIEVE_OPS` (each element is one
registered op list) and `TPU_EMBEDDING` (the API singleton). -/
structure LayerCollections where
  loadOps : List (List Op)
  retrieveOps : List (List Op)
  tpuEmbedding : List TpuEmbeddingApi
  deriving DecidableEq, Repr

/-- `TPUEmbeddingLayer._CreateLayerVariables` (lines 488-528), restricted to
its observable effects on the three collections and the chosen
`self._tpu_embedding`.  When `use_tpu()`: the per-table `load_op_list`s (and
`retrieve_op_list`s) are concatenated in table order, added to the
load/retrieve collections, and the `TPU_EMBEDDING` collection is asserted to
hold at most one object (`none` models the assertion failing), reused when
present and freshly created and registered only when empty.  When not
`use_tpu()` nothing happens. -/
def layerCreateLayerVariables (useTpu : Bool) (tables : List TableState)
    (colls : LayerCollections) :
    Option (LayerCollections × Option TpuEmbeddingApi) :=
  if useTpu then
    let loadOpList := tables.foldl (fun acc t => acc ++ t.loadOpList) []
    let retrieveOpList := tables.foldl (fun acc t => acc ++ t.retrieveOpList) []
    let colls1 := { colls with
      loadOps := colls.loadOps ++ [loadOpList]
      retrieveOps := colls.retrieveOps ++ [retrieveOpList] }
    if colls.tpuEmbedding.length ≤ 1 then
      match colls.tpuEmbedding with
      | [existing] => some (colls1, some existing)
      | _ =>
        let fresh := newTpuEmbeddingApi tables
        some ({ colls1 with tpuEmbedding := colls.tpuEmbedding ++ [fresh] },
          some fresh)
    else
      none
  else
    some (colls, none)

/-! ### TPUEmbeddingTable.CpuEmbLookup -/

/-- The ids of one row that participate in the sparse lookup:
`tf.where(tf.not_equal(ids, -1))` drops the padding id `-1`. -/
def validIds (row : List Int) : List Int :=
  row.filter fun i => i != -1

/-- The first dimension of `tf.nn.embedding_lookup_sparse`'s output: the
smallest span starting at row 0 that covers all rows holding at least one
non-padding id (per the comment in `CpuEmbLookup`). -/
def lookupSpan : List (List Int) → Nat
  | [] => 0
  | row :: rest =>
    let s := lookupSpan rest
    if s == 0 && (validIds row).isEmpty then 0 else s + 1

/-- One combined output row of `tf.nn.embedding_lookup_sparse` for a row
inside the span: the combiner applied to the embeddings of the row's
non-padding ids; a row with no ids inside the span yields zeros.  `comb`
abstracts the library combiner selected by `p.combiner`. -/
def combineRow (comb : List (List ℚ) → List ℚ) (dim : Nat)
    (wm : Int → List ℚ) (row : List Int) : List ℚ :=
  let vids := validIds row
  if vids.isEmpty then List.replicate dim 0
  else comb (vids.map wm)

/-- The non-sequence branch of `TPUEmbeddingTable.CpuEmbLookup` for one input
key (lines 390-417): dense-to-sparse conversion dropping `-1`, sparse lookup
with combiner, explicit zero-padding of dimension 0 back to the batch size,
then `expand_dims(·, 1)`, yielding a `[batch, 1, embedding_dim]` value. -/
def cpuEmbLookupNonSeq (comb : List (List ℚ) → List ℚ) (dim : Nat)
    (wm : Int → List ℚ) (ids : List (List Int)) : List (List (List ℚ)) :=
  let span := lookupSpan ids
  let embs := (ids.take span).map (combineRow comb dim wm)
  let padded := embs ++ List.replicate (ids.length - span) (List.replicate dim 0)
  padded.map fun r => [r]

/-- The sequence branch of `TPUEmbeddingTable.CpuEmbLookup` for one input key
(lines 385-389): plain per-id `embedding_lookup` reshaped to
`[batch, max_sequence_length, embedding_dim]`. -/
def cpuEmbLookupSeq (wm : Int → List ℚ) (ids : List (List Int)) :
    List (List (List ℚ)) :=
  ids.map fun row => row.map wm

/-! ### TPUEmbeddingLayer.EmbLookup: CPU/TPU dispatch -/

/-- A tensor value, nested lists of rational scalars. -/
inductive Tensor where
  | scalar (q : ℚ)
  | vec (elems : List Tensor)

/-- `tf.expand_dims(v, axis=[1])` on a rank-≥1 tensor: each element of the
outer dimension is wrapped in a singleton dimension. -/
def Tensor.expandDim1 : Tensor → Tensor
  | Tensor.vec elems => Tensor.vec (elems.map fun t => Tensor.vec [t])
  | t => t

/-- A rank-3 list-of-lists value as a `Tensor`. -/
def tensorOfRank3 (x : List (List (List ℚ))) : Tensor :=
  Tensor.vec (x.map fun a =>
    Tensor.vec (a.map fun b => Tensor.vec (b.map Tensor.scalar)))

/-- The lookup-relevant state of one table on the CPU path: its input keys,
its `max_sequence_length`, the combiner, the embedding dimension and the
embedding weights `theta.wm`. -/
structure CpuTable where
  inputKeys : List String
  maxSequenceLength : Int
  comb : List (List ℚ) → List ℚ
  dim : Nat
  wm : Int → List ℚ

/-- `TPUEmbeddingTable.CpuEmbLookup`: per input key, the sequence branch when
`self.max_sequence_length > 0`, else the combiner branch. -/
def tableCpuEmbLookup (t : CpuTable) (idsMap : List (String × List (List Int))) :
    List (String × Tensor) :=
  if 0 < t.maxSequenceLength then
    idsMap.map fun kv => (kv.1, tensorOfRank3 (cpuEmbLookupSeq t.wm kv.2))
  else
    idsMap.map fun kv =>
      (kv.1, tensorOfRank3 (cpuEmbLookupNonSeq t.comb t.dim t.wm kv.2))

/-- `rets[k] = v` on a `NestedMap` modelled as an association list: replace an
existing binding of `k`, else append one. -/
def setKey (m : List (String × Tensor)) (k : String) (v : Tensor) :
    List (String × Tensor) :=
  if m.any (fun kv => kv.1 == k) then
    m.map fun kv => if kv.1 == k then (k, v) else kv
  else m ++ [(k, v)]

/-- The nested `CpuEmbLookup` helper of `TPUEmbeddingLayer.EmbLookup`
(lines 567-578): per table, restrict `ids_map` to the table's input keys,
look them up in the table, and merge the results into `rets`. -/
def layerCpuEmbLookup (tables : List CpuTable)
    (idsMap : String → List (List Int)) : List (String × Tensor) :=
  tables.foldl (fun rets t =>
    let tableIdMap := t.inputKeys.map fun k => (k, idsMap k)
    (tableCpuEmbLookup t tableIdMap).foldl
      (fun acc kv => setKey acc kv.1 kv.2) rets) []

/-- The accelerator-side state that the nested `TpuEmbLookup` helper reads:
the activations of `self._tpu_embedding.get_activations()` and the set of
sequence features. -/
structure TpuLookupState where
  activations : List (String × Tensor)
  sequenceFeatures : List String

/-- The nested `TpuEmbLookup` helper of `TPUEmbeddingLayer.EmbLookup`
(lines 553-565): drops `ids_map`, reads the activations, and per key keeps
sequence-feature activations as-is while expanding a time dimension of 1 on
the others. -/
def tpuEmbLookup (st : TpuLookupState)
    (idsMap : String → List (List Int)) : List (String × Tensor) :=
  let _ := idsMap
  st.activations.map fun kv =>
    if st.sequenceFeatures.contains kv.1 then kv
    else (kv.1, kv.2.expandDim1)

/-- `TPUEmbeddingLayer.EmbLookup` (lines 580-583): the CPU helper when
`not py_utils.use_tpu()`, the TPU helper otherwise. -/
def embLookup (useTpu : Bool) (st : TpuLookupState) (tables : List CpuTable)
    (idsMap : String → List (List Int)) : List (String × Tensor) :=
  if !useTpu then layerCpuEmbLookup tables idsMap
  else tpuEmbLookup st idsMap

/-! ### RandomChoicePreprocessor and ConstantPreprocessor -/

/-- A constant value a `ConstantPreprocessor` can be configured with
(`constant_value` in `input_preprocessors_test.py`): an int scalar, a float
scalar, or an int list. -/
inductive PyConst where
  | int (n : Int)
  | float (q : ℚ)
  | intList (ns : List Int)
  deriving DecidableEq, Repr

/-- `np.array(constant_value).shape`: empty for scalars, `[len]` for lists. -/
def PyConst.npShape : PyConst → List Nat
  | PyConst.int _ => []
  | PyConst.float _ => []
  | PyConst.intList ns => [ns.length]

/-- `tf.as_dtype(np.array(constant_value).dtype)` as a dtype name. -/
def PyConst.npDType : PyConst → String
  | PyConst.int _ => "int64"
  | PyConst.float _ => "float64"
  | PyConst.intList _ => "int64"

/-- A shapes `NestedMap`: key → `TensorShape` dimension list. -/
abbrev ShapeMap := List (String × List Nat)

/-- A dtypes `NestedMap`: key → dtype name. -/
abbrev DTypeMap := List (String × String)

/-- `key → value` assignment on a generic association map: replace an
existing binding, else append. -/
def setAssoc {α : Type} (m : List (String × α)) (k : String) (v : α) :
    List (String × α) :=
  if m.any (fun kv => kv.1 == k) then
    m.map fun kv => if kv.1 == k then (k, v) else kv
  else m ++ [(k, v)]

/-- Parameters of the test's `ConstantPreprocessor`. -/
structure ConstantPreprocessorParams where
  constantValue : PyConst
  keyName : String
  deriving DecidableEq, Repr

/-- `ConstantPreprocessor.TransformShapes`: sets
`shapes[key_name] = TensorShape(np.array(constant_value).shape)`. -/
def constantTransformShapes (p : ConstantPreprocessorParams)
    (shapes : ShapeMap) : ShapeMap :=
  setAssoc shapes p.keyName p.constantValue.npShape

/-- `ConstantPreprocessor.TransformDTypes`: sets
`dtypes[key_name] = as_dtype(np.array(constant_value).dtype)`. -/
def constantTransformDTypes (p : ConstantPreprocessorParams)
    (dtypes : DTypeMap) : DTypeMap :=
  setAssoc dtypes p.keyName p.constantValue.npDType

/-- `ConstantPreprocessor.TransformFeatures`: sets
`features[key_name] = tf.constant(constant_value)`. -/
def constantTransformFeatures (p : ConstantPreprocessorParams)
    (features : List (String × PyConst)) : List (String × PyConst) :=
  setAssoc features p.keyName p.constantValue

/-- Modelled from the spec: `RandomChoicePreprocessor` lives in
`lingvo/tasks/car/input_preprocessors.py`, which is not part of this slice;
only its test is.  Per the spec it is a "random-weighted dispatch across
sub-preprocessors", and per its test `TransformShapes`/`TransformDTypes`
raise `ValueError` unless every subprocessor produces the same transformed
map; on agreement the common map is the result.  This helper checks a list of
subprocessor results for agreement. -/
def rcCheckAllEqual {α : Type} [DecidableEq α] :
    List α → α → Except String α
  | [], original => Except.ok original
  | r :: rs, _ =>
    if rs.all (fun x => x = r) then Except.ok r
    else Except.error "Subprocessors must produce the same transformed values."

/-- Modelled from the spec: `RandomChoicePreprocessor.TransformShapes` applies
every subprocessor's shape transform and requires the results (keys and
shapes) to agree, raising `ValueError` otherwise. -/
def rcTransformShapes (subShapeFns : List (ShapeMap → ShapeMap))
    (shapes : ShapeMap) : Except String ShapeMap :=
  rcCheckAllEqual (subShapeFns.map fun f => f shapes) shapes

/-- Modelled from the spec: `RandomChoicePreprocessor.TransformDTypes`
applies every subprocessor's dtype transform and requires the results to
agree, raising `ValueError` otherwise. -/
def rcTransformDTypes (subDTypeFns : List (DTypeMap → DTypeMap))
    (dtypes : DTypeMap) : Except String DTypeMap :=
  rcCheckAllEqual (subDTypeFns.map fun f => f dtypes) dtypes

/-- Modelled from the spec: the weighted random choice inside
`RandomChoicePreprocessor.TransformFeatures`.  Given the weight tensor and a
uniform draw `u` in `[0, sum weights)`, the selected index is the one whose
cumulative-weight interval contains `u`, so index `i` is selected with
probability proportional to `weights[i]`. -/
def selectIndex : List ℚ → ℚ → Nat
  | [], _ => 0
  | w :: ws, u => if u < w then 0 else selectIndex ws (u - w) + 1

/-- Partial sum of the first `i` weights. -/
def partialWeightSum (weights : List ℚ) (i : Nat) : ℚ :=
  (weights.take i).foldl (· + ·) 0

/-- Modelled from the spec: `RandomChoicePreprocessor.TransformFeatures`
draws one subprocessor at random with probability proportional to the weight
tensor and applies its feature transform; the draw is abstracted by the
uniform sample `u`. -/
def rcTransformFeatures {α : Type} (subFeatureFns : List (α → α))
    (weights : List ℚ) (u : ℚ) (features : α) : α :=
  match subFeatureFns.get? (selectIndex weights u) with
  | some f => f features
  | none => features

/-! ### Helper lemmas -/

theorem idsPerShard_mul_ge (v h : Nat) (hv : 0 < v) (hh : 0 < h) :
    v ≤ idsPerShard v h * h := by
  have hlt : v + h - 1 < (v + h - 1) / h * h + h := Nat.lt_div_mul_add hh
  unfold idsPerShard
  generalize (v + h - 1) / h * h = qh at hlt ⊢
  omega

theorem idsPerShard_mul_lt (v h : Nat) (hv : 0 < v) (hh : 0 < h) :
    idsPerShard v h * h - v < h := by
  have hle : (v + h - 1) / h * h ≤ v + h - 1 := Nat.div_mul_le_self _ _
  unfold idsPerShard
  generalize (v + h - 1) / h * h = qh at hle ⊢
  omega

theorem idsPerShard_min (v h : Nat) (hv : 0 < v) (hh : 0 < h) (k : Nat)
    (hk : v ≤ k * h) : idsPerShard v h ≤ k := by
  have hq : (v + h - 1) / h < k + 1 := by
    rw [Nat.div_lt_iff_lt_mul hh]
    have heq : (k + 1) * h = k * h + h := by ring
    rw [heq]
    generalize k * h = kh at hk ⊢
    omega
  unfold idsPerShard
  omega

theorem zip_range'_map_get {β : Type} (f : Nat × Variable → β) :
    ∀ (n k i : Nat) (l : List Variable) (v : Variable),
      l[i]? = some v → i < n →
      (((List.range' k n).zip l).map f)[i]? = some (f (k + i, v))
  | 0, _, _, _, _, _, hi => absurd hi (Nat.not_lt_zero _)
  | n + 1, k, i, [], v, hv, _ => by simp at hv
  | n + 1, k, 0, v₀ :: l, v, hv, _ => by
    simp at hv
    simp [List.range', hv]
  | n + 1, k, i + 1, v₀ :: l, v, hv, hi => by
    simp at hv
    have ih := zip_range'_map_get f n (k + 1) i l v hv (Nat.lt_of_succ_lt_succ hi)
    simpa [List.range', Nat.add_assoc, Nat.add_comm 1 i] using ih

theorem zip_range_map_get {β : Type} (f : Nat × Variable → β) (n i : Nat)
    (l : List Variable) (v : Variable) (hv : l[i]? = some v) (hi : i < n) :
    (((List.range n).zip l).map f)[i]? = some (f (i, v)) := by
  have h := zip_range'_map_get f n 0 i l v hv hi
  simpa [List.range_eq_range'] using h

theorem zip_range_map_length {β : Type} (f : Nat × Variable → β) (n : Nat)
    (l : List Variable) :
    (((List.range n).zip l).map f).length = min n l.length := by
  simp

theorem foldl_append_flatten {α β : Type} (g : α → List β) :
    ∀ (l : List α) (acc : List β),
      l.foldl (fun a t => a ++ g t) acc = acc ++ (l.map g).flatten
  | [], acc => by simp
  | t :: l, acc => by
    simp [List.foldl_cons, foldl_append_flatten g l (acc ++ g t)]

theorem lookupSpan_le_length : ∀ ids : List (List Int), lookupSpan ids ≤ ids.length
  | [] => Nat.le_refl 0
  | row :: rest => by
    simp only [lookupSpan]
    split
    · exact Nat.zero_le _
    · simpa using Nat.succ_le_succ (lookupSpan_le_length rest)

theorem mem_validIds_ne (row : List Int) (i : Int) (hi : i ∈ validIds row) :
    i ≠ -1 := by
  have h := (List.mem_filter.mp hi).2
  simpa using h

theorem combineRow_length (comb : List (List ℚ) → List ℚ) (dim : Nat)
    (wm : Int → List ℚ) (row : List Int)
    (hcomb : ∀ l, l ≠ [] → (comb l).length = dim) :
    (combineRow comb dim wm row).length = dim := by
  unfold combineRow
  by_cases hv : (validIds row).isEmpty
  · simp [hv]
  · rw [if_neg hv]
    apply hcomb
    simp only [ne_eq, List.map_eq_nil_iff]
    intro hnil
    rw [hnil] at hv
    exact hv rfl

theorem combineRow_congr (comb : List (List ℚ) → List ℚ) (dim : Nat)
    (wm wm' : Int → List ℚ) (row : List Int)
    (hwm : ∀ i : Int, i ≠ -1 → wm i = wm' i) :
    combineRow comb dim wm row = combineRow comb dim wm' row := by
  unfold combineRow
  by_cases hv : (validIds row).isEmpty
  · simp [hv]
  · rw [if_neg hv, if_neg hv]
    congr 1
    apply List.map_congr_left
    intro i hi
    exact hwm i (mem_validIds_ne row i hi)

theorem foldl_add_shift : ∀ (ws : List ℚ) (a : ℚ),
    ws.foldl (· + ·) a = a + ws.foldl (· + ·) 0
  | [], a => by simp
  | w :: ws, a => by
    simp only [List.foldl_cons]
    rw [foldl_add_shift ws (a + w), foldl_add_shift ws (0 + w)]
    ring

theorem partialWeightSum_cons_succ (w : ℚ) (ws : List ℚ) (i : Nat) :
    partialWeightSum (w :: ws) (i + 1) = w + partialWeightSum ws i := by
  unfold partialWeightSum
  simp only [List.take_succ_cons, List.foldl_cons]
  rw [foldl_add_shift (List.take i ws) (0 + w)]
  ring

theorem selectIndex_interval : ∀ (weights : List ℚ) (u : ℚ),
    (∀ w ∈ weights, 0 ≤ w) → 0 ≤ u →
    u < partialWeightSum weights weights.length →
    partialWeightSum weights (selectIndex weights u) ≤ u ∧
    u < partialWeightSum weights (selectIndex weights u + 1) ∧
    selectIndex weights u < weights.length
  | [], u, _, hu, hlt => by
    exfalso
    simp only [partialWeightSum, List.length_nil, List.take_nil,
      List.foldl_nil] at hlt
    linarith
  | w :: ws, u, hw, hu, hlt => by
    simp only [selectIndex]
    by_cases hcase : u < w
    · rw [if_pos hcase]
      refine ⟨le_of_le_of_eq hu rfl, ?_, by simp⟩
      rw [show (0 + 1 : Nat) = 0 + 1 from rfl, partialWeightSum_cons_succ]
      have h0 : partialWeightSum ws 0 = 0 := rfl
      rw [h0]
      linarith
    · rw [if_neg hcase]
      have hws : ∀ x ∈ ws, 0 ≤ x := fun x hx => hw x (List.mem_cons_of_mem _ hx)
      have hu' : 0 ≤ u - w := by
        have := not_lt.mp hcase
        linarith
      have hlt' : u - w < partialWeightSum ws ws.length := by
        have hc := partialWeightSum_cons_succ w ws ws.length
        simp only [List.length_cons] at hlt
        rw [hc] at hlt
        linarith
      obtain ⟨h1, h2, h3⟩ := selectIndex_interval ws (u - w) hws hu' hlt'
      refine ⟨?_, ?_, by simpa using Nat.succ_lt_succ h3⟩
      · rw [partialWeightSum_cons_succ]
        linarith
      · rw [show selectIndex ws (u - w) + 1 + 1 = (selectIndex ws (u - w) + 1) + 1
            from rfl, partialWeightSum_cons_succ]
        linarith

theorem rcCheckAllEqual_error_iff {α : Type} [DecidableEq α]
    (results : List α) (orig : α) :
    (∃ msg, rcCheckAllEqual results orig = Except.error msg) ↔
      ∃ a ∈ results, ∃ b ∈ results, a ≠ b := by
  cases results with
  | nil =>
    simp [rcCheckAllEqual]
  | cons r rs =>
    simp only [rcCheckAllEqual]
    by_cases hall : (rs.all fun x => decide (x = r)) = true
    · rw [if_pos hall]
      simp only [List.all_eq_true, decide_eq_true_eq] at hall
      constructor
      · rintro ⟨msg, hmsg⟩
        cases hmsg
      · rintro ⟨a, ha, b, hb, hab⟩
        exfalso
        have ha' : a = r := by
          rcases List.mem_cons.mp ha with h | h
          · exact h
          · exact hall a h
        have hb' : b = r := by
          rcases List.mem_cons.mp hb with h | h
          · exact h
          · exact hall b h
        rw [ha', hb'] at hab
        exact hab rfl
    · rw [if_neg hall]
      constructor
      · intro _
        simp only [List.all_eq_true, decide_eq_true_eq, not_forall] at hall
        obtain ⟨x, hx, hxr⟩ := hall
        exact ⟨r, List.mem_cons_self r rs, x, List.mem_cons_of_mem r hx, fun h =>
          hxr h.symm⟩
      · intro _
        exact ⟨_, rfl⟩

theorem rcCheckAllEqual_ok {α : Type} [DecidableEq α] (results : List α)
    (orig r : α) (hne : results ≠ []) (hall : ∀ b ∈ results, b = r) :
    rcCheckAllEqual results orig = Except.ok r := by
  cases results with
  | nil => exact absurd rfl hne
  | cons r₀ rs =>
    have hr₀ : r₀ = r := hall r₀ (List.mem_cons_self r₀ rs)
    simp only [rcCheckAllEqual]
    rw [if_pos]
    · rw [hr₀]
    · simp only [List.all_eq_true, decide_eq_true_eq]
      intro x hx
      rw [hall x (List.mem_cons_of_mem r₀ hx), hr₀]

/-! ### Claim theorems -/

/-- C1: for every `vocab_size > 0` and `num_tpu_hosts > 0`,
`TPUEmbeddingTable.__init__` sets `_ids_per_shard` to the ceiling division
`ceil(vocab_size / num_tpu_hosts)` (so `_padded_vocab_size =
_ids_per_shard * num_tpu_hosts` covers `vocab_size` with an overshoot below
`num_tpu_hosts`, and `_ids_per_shard` is the least such shard size), and
`_CreateLayerVariables` creates exactly one shard variable of shape
`[_ids_per_shard, embedding_dim]` per host. -/
theorem c1_sharding_math (v h dim : Nat) (doEval : Bool) (w : String)
    (hv : 0 < v) (hh : 0 < h) :
    paddedVocabSize v h = idsPerShard v h * h ∧
    v ≤ paddedVocabSize v h ∧
    paddedVocabSize v h - v < h ∧
    (∀ k, v ≤ k * h → idsPerShard v h ≤ k) ∧
    (tableCreateLayerVariables doEval w v dim h).length = h ∧
    (∀ i, i < h →
      (tableCreateLayerVariables doEval w v dim h)[i]? =
        some { name := GetVariableName i
               shape := [idsPerShard v h, dim]
               init := InitSpec.paramsInit
               device := GetDeviceName doEval w i
               trainable := true }) := by
  refine ⟨rfl, idsPerShard_mul_ge v h hv hh, idsPerShard_mul_lt v h hv hh,
    fun k hk => idsPerShard_min v h hv hh k hk, by simp [tableCreateLayerVariables],
    fun i hi => ?_⟩
  simp [tableCreateLayerVariables, List.getElem?_map, List.getElem?_range, hi]

/-- C1 witness: the sharding math and shard variables at `vocab_size = 5`,
`num_tpu_hosts = 2`, `embedding_dim = 3`. -/
theorem c1_sharding_math_witness :
    0 < 5 ∧ 0 < 2 ∧
    (paddedVocabSize 5 2 = idsPerShard 5 2 * 2 ∧
      5 ≤ paddedVocabSize 5 2 ∧
      paddedVocabSize 5 2 - 5 < 2 ∧
      (∀ k, 5 ≤ k * 2 → idsPerShard 5 2 ≤ k) ∧
      (tableCreateLayerVariables false "worker" 5 3 2).length = 2 ∧
      (∀ i, i < 2 →
        (tableCreateLayerVariables false "worker" 5 3 2)[i]? =
          some { name := GetVariableName i
                 shape := [idsPerShard 5 2, 3]
                 init := InitSpec.paramsInit
                 device := GetDeviceName false "worker" i
                 trainable := true })) :=
  ⟨by decide, by decide,
    c1_sharding_math 5 2 3 false "worker" (by decide) (by decide)⟩

/-- C4 counterexample: `TPUEmbeddingTable.__init__` never validates the
string value of `p.combiner`, so construction succeeds with the combiner
`"bogus"`, which is none of `"sum"`, `"sqrtn"`, `"mean"` or `None`; the
claim that construction succeeds only for those values is false. -/
theorem c4_combiner_not_validated_counterexample :
    tableInitSucceeds
      { vocabSize := 4, embeddingDim := 2, inputKeys := ["k"], name := "t",
        combiner := some "bogus", maxSequenceLength := none,
        numTpuHosts := 2 } = true ∧
    (some "bogus" : Option String) ≠ none ∧
    "bogus" ∉ (["sum", "sqrtn", "mean"] : List String) := by
  refine ⟨by decide, by decide, by decide⟩

/-- C4 (amended): under the other `__init__` preconditions, construction of
`TPUEmbeddingTable` succeeds if and only if the sequence-embedding mode is
exclusive with combining — `combiner = None` requires a truthy
`max_sequence_length`, and a positive `max_sequence_length` requires
`combiner = None`; the combiner's string value itself is never checked. -/
theorem c4_sequence_mode_exclusivity (p : TableParams)
    (h1 : 0 < p.vocabSize) (h2 : 0 < p.embeddingDim)
    (h3 : p.inputKeys ≠ []) (h4 : p.name ≠ "") (h5 : 0 < p.numTpuHosts) :
    tableInitSucceeds p = true ↔
      ((p.combiner = none → optionIntTruthy p.maxSequenceLength = true) ∧
       (∀ m : Int, p.maxSequenceLength = some m → 0 < m →
         p.combiner = none)) := by
  have hkeys : p.inputKeys.isEmpty = false := by
    cases hk : p.inputKeys with
    | nil => exact absurd hk h3
    | cons a l => rfl
  have hname : (p.name == "") = false := by
    simp [h4]
  unfold tableInitSucceeds
  rw [hkeys, hname]
  cases hc : p.combiner with
  | none =>
    cases hm : p.maxSequenceLength with
    | none => simp [h1, h2, h5, optionIntTruthy, hm]
    | some m => simp [h1, h2, h5, optionIntTruthy, hm]
  | some c =>
    cases hm : p.maxSequenceLength with
    | none => simp [h1, h2, h5, optionIntTruthy, hm]
    | some m =>
      by_cases hmpos : 0 < m
      · simp [h1, h2, h5, optionIntTruthy, hm, hmpos]
      · simp [h1, h2, h5, optionIntTruthy, hm, hmpos]
        omega

/-- C4 witness: the amended exclusivity characterization at a sequence-mode
table (`combiner = None`, `max_sequence_length = 7`). -/
theorem c4_sequence_mode_exclusivity_witness :
    (0 : Nat) < 16 ∧ (0 : Nat) < 4 ∧ (["ids"] : List String) ≠ [] ∧
    ("tbl" : String) ≠ "" ∧ (0 : Nat) < 2 ∧
    (tableInitSucceeds
        { vocabSize := 16, embeddingDim := 4, inputKeys := ["ids"],
          name := "tbl", combiner := none, maxSequenceLength := some 7,
          numTpuHosts := 2 } = true ↔
      ((( none : Option String) = none →
          optionIntTruthy (some 7) = true) ∧
       (∀ m : Int, (some 7 : Option Int) = some m → 0 < m →
         (none : Option String) = none))) :=
  ⟨by decide, by decide, by decide, by decide, by decide,
    c4_sequence_mode_exclusivity
      { vocabSize := 16, embeddingDim := 4, inputKeys := ["ids"],
        name := "tbl", combiner := none, maxSequenceLength := some 7,
        numTpuHosts := 2 }
      (by decide) (by decide) (by decide) (by decide) (by decide)⟩

/-- C8: `_TPUEmbeddingOptimizer.CreateSlotVariablesAndOps` returns the
`NotImplementedError` instance as a value (it terminates normally on every
call), and its result is never the documented pair of load/retrieve op
lists. -/
theorem c8_base_returns_not_implemented (tableVars : List Variable) :
    baseCreateSlotVariablesAndOps tableVars =
      SlotOpsResult.notImplementedError ∧
    ∀ loadOps retrieveOps : List Op,
      baseCreateSlotVariablesAndOps tableVars ≠
        SlotOpsResult.ops loadOps retrieveOps := by
  refine ⟨rfl, fun loadOps retrieveOps h => ?_⟩
  simp [baseCreateSlotVariablesAndOps] at h

/-- C8 witness: the base class result on a concrete (empty) shard list. -/
theorem c8_base_returns_not_implemented_witness :
    baseCreateSlotVariablesAndOps [] = SlotOpsResult.notImplementedError ∧
    ∀ loadOps retrieveOps : List Op,
      baseCreateSlotVariablesAndOps [] ≠
        SlotOpsResult.ops loadOps retrieveOps :=
  c8_base_returns_not_implemented []

/-- C3: for both optimizers, `CreateSlotVariablesAndOps` returns a pair of
load/retrieve op lists; with `use_tpu()` true each list has exactly one op
per iterated `(host_id, table_var)` pair — `min(num_tpu_hosts,
len(table_vars))` ops, the `i`-th carrying `shard_id = i` — and with
`use_tpu()` false both lists are empty. -/
theorem c3_slot_ops_counts (numTpuHosts : Nat) (tableName : String)
    (tableVars : List Variable) (doEval : Bool) (w : String) (acc : ℚ) :
    ((sgdCreateSlotVariablesAndOps true numTpuHosts tableName tableVars).1.length =
        min numTpuHosts tableVars.length ∧
      (sgdCreateSlotVariablesAndOps true numTpuHosts tableName tableVars).2.1.length =
        min numTpuHosts tableVars.length ∧
      (adagradCreateSlotVariablesAndOps true doEval w acc numTpuHosts tableName
          tableVars).1.length = min numTpuHosts tableVars.length ∧
      (adagradCreateSlotVariablesAndOps true doEval w acc numTpuHosts tableName
          tableVars).2.1.length = min numTpuHosts tableVars.length) ∧
    (∀ i v, tableVars[i]? = some v → i < numTpuHosts →
      (sgdCreateSlotVariablesAndOps true numTpuHosts tableName tableVars).1[i]? =
          some { kind := OpKind.loadSgd, tableName := tableName,
                 numShards := numTpuHosts, shardId := i } ∧
      (sgdCreateSlotVariablesAndOps true numTpuHosts tableName tableVars).2.1[i]? =
          some { kind := OpKind.retrieveSgd, tableName := tableName,
                 numShards := numTpuHosts, shardId := i } ∧
      (adagradCreateSlotVariablesAndOps true doEval w acc numTpuHosts tableName
          tableVars).1[i]? =
          some { kind := OpKind.loadAdagrad, tableName := tableName,
                 numShards := numTpuHosts, shardId := i } ∧
      (adagradCreateSlotVariablesAndOps true doEval w acc numTpuHosts tableName
          tableVars).2.1[i]? =
          some { kind := OpKind.retrieveAdagrad, tableName := tableName,
                 numShards := numTpuHosts, shardId := i }) ∧
    ((sgdCreateSlotVariablesAndOps false numTpuHosts tableName tableVars).1 = [] ∧
      (sgdCreateSlotVariablesAndOps false numTpuHosts tableName tableVars).2.1 = [] ∧
      (adagradCreateSlotVariablesAndOps false doEval w acc numTpuHosts tableName
          tableVars).1 = [] ∧
      (adagradCreateSlotVariablesAndOps false doEval w acc numTpuHosts tableName
          tableVars).2.1 = []) := by
  refine ⟨⟨?_, ?_, ?_, ?_⟩, fun i v hv hi => ⟨?_, ?_, ?_, ?_⟩, ?_, ?_, ?_, ?_⟩
  · simp [sgdCreateSlotVariablesAndOps]
  · simp [sgdCreateSlotVariablesAndOps]
  · simp [adagradCreateSlotVariablesAndOps]
  · simp [adagradCreateSlotVariablesAndOps]
  · exact zip_range_map_get (fun hv =>
      ({ kind := OpKind.loadSgd, tableName := tableName,
         numShards := numTpuHosts, shardId := hv.1 } : Op))
      numTpuHosts i tableVars v hv hi
  · exact zip_range_map_get (fun hv =>
      ({ kind := OpKind.retrieveSgd, tableName := tableName,
         numShards := numTpuHosts, shardId := hv.1 } : Op))
      numTpuHosts i tableVars v hv hi
  · exact zip_range_map_get (fun hv =>
      ({ kind := OpKind.loadAdagrad, tableName := tableName,
         numShards := numTpuHosts, shardId := hv.1 } : Op))
      numTpuHosts i tableVars v hv hi
  · exact zip_range_map_get (fun hv =>
      ({ kind := OpKind.retrieveAdagrad, tableName := tableName,
         numShards := numTpuHosts, shardId := hv.1 } : Op))
      numTpuHosts i tableVars v hv hi
  · simp [sgdCreateSlotVariablesAndOps]
  · simp [sgdCreateSlotVariablesAndOps]
  · simp [adagradCreateSlotVariablesAndOps]
  · simp [adagradCreateSlotVariablesAndOps]

/-- C3 witness: op counts for both optimizers at `num_tpu_hosts = 2` with a
single table shard variable, on and off the TPU. -/
theorem c3_slot_ops_counts_witness :
    ((sgdCreateSlotVariablesAndOps true 2 "t_table"
        [{ name := "var_0", shape := [3, 2], init := InitSpec.paramsInit,
           device := none, trainable := true }]).1.length = min 2 1 ∧
      (sgdCreateSlotVariablesAndOps true 2 "t_table"
        [{ name := "var_0", shape := [3, 2], init := InitSpec.paramsInit,
           device := none, trainable := true }]).2.1.length = min 2 1 ∧
      (adagradCreateSlotVariablesAndOps true false "worker" (1 / 10) 2 "t_table"
        [{ name := "var_0", shape := [3, 2], init := InitSpec.paramsInit,
           device := none, trainable := true }]).1.length = min 2 1 ∧
      (adagradCreateSlotVariablesAndOps true false "worker" (1 / 10) 2 "t_table"
        [{ name := "var_0", shape := [3, 2], init := InitSpec.paramsInit,
           device := none, trainable := true }]).2.1.length = min 2 1) ∧
    (sgdCreateSlotVariablesAndOps true 2 "t_table"
        [{ name := "var_0", shape := [3, 2], init := InitSpec.paramsInit,
           device := none, trainable := true }]).1[0]? =
      some { kind := OpKind.loadSgd, tableName := "t_table",
             numShards := 2, shardId := 0 } ∧
    ((sgdCreateSlotVariablesAndOps false 2 "t_table"
        [{ name := "var_0", shape := [3, 2], init := InitSpec.paramsInit,
           device := none, trainable := true }]).1 = [] ∧
      (adagradCreateSlotVariablesAndOps false false "worker" (1 / 10) 2 "t_table"
        [{ name := "var_0", shape := [3, 2], init := InitSpec.paramsInit,
           device := none, trainable := true }]).1 = []) := by
  have h := c3_slot_ops_counts 2 "t_table"
    [{ name := "var_0", shape := [3, 2], init := InitSpec.paramsInit,
       device := none, trainable := true }] false "worker" (1 / 10)
  exact ⟨h.1, (h.2.1 0 _ rfl (by decide)).1, h.2.2.1, h.2.2.2.2.1⟩

/-- C6: per iterated host, `TPUEmbeddingAdagradOptimizer` creates exactly one
non-trainable accumulator slot variable per table shard, with the shard's
shape, constant initializer `p.initial_accumulator` (default `0.1`), on the
same device as the shard variable; `TPUEmbeddingSGDOptimizer` creates no
slot variables. -/
theorem c6_adagrad_slot_variables (useTpu doEval : Bool) (w : String)
    (acc : ℚ) (numTpuHosts : Nat) (tableName : String)
    (tableVars : List Variable) :
    (adagradCreateSlotVariablesAndOps useTpu doEval w acc numTpuHosts
        tableName tableVars).2.2.length = min numTpuHosts tableVars.length ∧
    (∀ i v, tableVars[i]? = some v → i < numTpuHosts →
      (adagradCreateSlotVariablesAndOps useTpu doEval w acc numTpuHosts
          tableName tableVars).2.2[i]? =
        some { name := GetVariableName i ++ "/Adagrad"
               shape := v.shape
               init := InitSpec.constant acc
               device := GetDeviceName doEval w i
               trainable := false }) ∧
    adagradInitialAccumulatorDefault = 1 / 10 ∧
    (∀ i v, tableVars[i]? = some v → i < numTpuHosts →
      v.device = GetDeviceName doEval w i →
      ((adagradCreateSlotVariablesAndOps useTpu doEval w acc numTpuHosts
          tableName tableVars).2.2[i]?.map Variable.device) =
        some v.device) ∧
    (sgdCreateSlotVariablesAndOps useTpu numTpuHosts tableName
        tableVars).2.2 = [] := by
  refine ⟨by simp [adagradCreateSlotVariablesAndOps], fun i v hv hi => ?_,
    rfl, fun i v hv hi hd => ?_, by simp [sgdCreateSlotVariablesAndOps]⟩
  · exact zip_range_map_get (fun hv =>
      adagradSlotVariable doEval w acc hv.1 hv.2) numTpuHosts i tableVars v hv hi
  · have h : (adagradCreateSlotVariablesAndOps useTpu doEval w acc numTpuHosts
        tableName tableVars).2.2[i]? =
          some (adagradSlotVariable doEval w acc i v) :=
      zip_range_map_get (fun hv =>
        adagradSlotVariable doEval w acc hv.1 hv.2) numTpuHosts i tableVars v hv hi
    rw [h]
    simp [adagradSlotVariable, hd]

/-- C6 witness: the Adagrad accumulator created for host 0 over one concrete
shard variable, at the default `initial_accumulator = 0.1`. -/
theorem c6_adagrad_slot_variables_witness :
    ([{ name := "var_0", shape := [3, 2], init := InitSpec.paramsInit,
        device := GetDeviceName false "worker" 0, trainable := true }] :
      List Variable)[0]? =
      some { name := "var_0", shape := [3, 2], init := InitSpec.paramsInit,
             device := GetDeviceName false "worker" 0, trainable := true } ∧
    0 < 2 ∧
    (adagradCreateSlotVariablesAndOps true false "worker" (1 / 10) 2 "t_table"
        [{ name := "var_0", shape := [3, 2], init := InitSpec.paramsInit,
           device := GetDeviceName false "worker" 0, trainable := true }]).2.2[0]? =
      some { name := GetVariableName 0 ++ "/Adagrad"
             shape := [3, 2]
             init := InitSpec.constant (1 / 10)
             device := GetDeviceName false "worker" 0
             trainable := false } ∧
    (sgdCreateSlotVariablesAndOps true 2 "t_table"
        [{ name := "var_0", shape := [3, 2], init := InitSpec.paramsInit,
           device := GetDeviceName false "worker" 0, trainable := true }]).2.2 = [] := by
  have h := c6_adagrad_slot_variables true false "worker" (1 / 10) 2 "t_table"
    [{ name := "var_0", shape := [3, 2], init := InitSpec.paramsInit,
       device := GetDeviceName false "worker" 0, trainable := true }]
  exact ⟨rfl, by decide, h.2.1 0 _ rfl (by decide), h.2.2.2.2⟩

/-- C9: `TPUEmbeddingLayer.__init__` raises `ValueError` exactly when some
table's optimizer parameters are `None` and the layer-level optimizer
parameters are falsy; otherwise every `None` table optimizer is replaced by
a copy of the layer-level one, so after successful construction every table
has non-`None` optimizer parameters. -/
theorem c9_layer_optimizer_propagation {α : Type} (layerOptimizer : Option α)
    (tableOptimizers : List (Option α)) :
    ((∃ msg, layerInitOptimizers layerOptimizer tableOptimizers =
        Except.error msg) ↔
      (layerOptimizer = none ∧ tableOptimizers.any Option.isNone = true)) ∧
    (∀ ts, layerInitOptimizers layerOptimizer tableOptimizers = Except.ok ts →
      ts = tableOptimizers.map (fun t =>
        match t with
        | none => layerOptimizer
        | some o => some o) ∧
      ts.all Option.isSome = true) := by
  unfold layerInitOptimizers
  by_cases hmiss : tableOptimizers.any Option.isNone = true
  · cases layerOptimizer with
    | none =>
      simp [hmiss]
    | some l =>
      simp only [Option.isNone_some, Bool.false_and, Bool.false_eq_true,
        if_false, hmiss, if_true]
      refine ⟨by simp, fun ts hts => ?_⟩
      have hts' : ts = tableOptimizers.map (fun t =>
          match t with
          | none => some l
          | some o => some o) := by
        cases hts
        rfl
      subst hts'
      refine ⟨rfl, ?_⟩
      simp only [List.all_map, List.all_eq_true]
      intro t _
      cases t with
      | none => rfl
      | some o => rfl
  · have hmiss' : tableOptimizers.any Option.isNone = false := by
      cases h : tableOptimizers.any Option.isNone with
      | false => rfl
      | true => exact absurd h hmiss
    simp only [hmiss', Bool.and_false, Bool.false_eq_true, if_false]
    refine ⟨by simp [hmiss'], fun ts hts => ?_⟩
    have hts' : ts = tableOptimizers := by
      cases hts
      rfl
    refine ⟨?_, ?_⟩
    · rw [hts']
      conv_lhs => rw [← List.map_id tableOptimizers]
      apply List.map_congr_left
      intro t ht
      cases t with
      | none => exact absurd (List.any_eq_true.mpr ⟨none, ht, rfl⟩) hmiss
      | some o => rfl
    · rw [hts']
      simp only [List.all_eq_true]
      intro t ht
      cases t with
      | none => exact absurd (List.any_eq_true.mpr ⟨none, ht, rfl⟩) hmiss
      | some o => rfl

/-- C9 witness: propagation at a layer-level optimizer `some 7` with one
table missing its optimizer. -/
theorem c9_layer_optimizer_propagation_witness :
    ((∃ msg, layerInitOptimizers (some 7) [some 3, none] =
        Except.error msg) ↔
      ((some 7 : Option Nat) = none ∧
        ([some 3, none] : List (Option Nat)).any Option.isNone = true)) ∧
    (∀ ts, layerInitOptimizers (some 7) [some 3, none] = Except.ok ts →
      ts = ([some 3, none] : List (Option Nat)).map (fun t =>
        match t with
        | none => some 7
        | some o => some o) ∧
      ts.all Option.isSome = true) :=
  c9_layer_optimizer_propagation (some 7) [some 3, none]

/-- C7: with `use_tpu()` true, `TPUEmbeddingLayer._CreateLayerVariables`
registers into the load/retrieve collections exactly the concatenation, in
table order, of every table's `load_op_list` and `retrieve_op_list`, and
keeps at most one `TPUEmbedding` API object in the `TPU_EMBEDDING`
collection: an existing object is reused, and a new one is created and added
only when the collection is empty. -/
theorem c7_collection_registration (tables : List TableState)
    (colls : LayerCollections) (h : colls.tpuEmbedding.length ≤ 1) :
    ∃ colls' api, layerCreateLayerVariables true tables colls =
        some (colls', some api) ∧
      colls'.loadOps =
        colls.loadOps ++ [(tables.map TableState.loadOpList).flatten] ∧
      colls'.retrieveOps =
        colls.retrieveOps ++ [(tables.map TableState.retrieveOpList).flatten] ∧
      colls'.tpuEmbedding.length = 1 ∧
      (∀ e, colls.tpuEmbedding = [e] →
        api = e ∧ colls'.tpuEmbedding = [e]) ∧
      (colls.tpuEmbedding = [] →
        api = newTpuEmbeddingApi tables ∧
        colls'.tpuEmbedding = [newTpuEmbeddingApi tables]) := by
  have hload : tables.foldl (fun a t => a ++ t.loadOpList) [] =
      (tables.map TableState.loadOpList).flatten := by
    rw [foldl_append_flatten]
    rfl
  have hret : tables.foldl (fun a t => a ++ t.retrieveOpList) [] =
      (tables.map TableState.retrieveOpList).flatten := by
    rw [foldl_append_flatten]
    rfl
  cases hte : colls.tpuEmbedding with
  | nil =>
    refine ⟨{ colls with
        loadOps := colls.loadOps ++ [(tables.map TableState.loadOpList).flatten]
        retrieveOps :=
          colls.retrieveOps ++ [(tables.map TableState.retrieveOpList).flatten]
        tpuEmbedding := [newTpuEmbeddingApi tables] },
      newTpuEmbeddingApi tables, ?_, rfl, rfl, rfl, ?_, fun _ => ⟨rfl, rfl⟩⟩
    · simp only [layerCreateLayerVariables, hload, hret, hte, if_true]
      rfl
    · intro e he
      exact absurd he (by simp)
  | cons e rest =>
    cases rest with
    | nil =>
      refine ⟨{ colls with
          loadOps :=
            colls.loadOps ++ [(tables.map TableState.loadOpList).flatten]
          retrieveOps := colls.retrieveOps ++
            [(tables.map TableState.retrieveOpList).flatten] },
        e, ?_, rfl, rfl, by simp [hte], ?_, ?_⟩
      · simp only [layerCreateLayerVariables, hload, hret, hte, if_true]
        rfl
      · intro e' he'
        cases he'
        exact ⟨rfl, by simp [hte]⟩
      · intro he'
        exact absurd he' (by simp)
    | cons e' rest' =>
      rw [hte] at h
      simp at h

/-- C7 witness: registration over two concrete tables starting from an empty
`TPU_EMBEDDING` collection. -/
theorem c7_collection_registration_witness :
    ({ loadOps := [], retrieveOps := [], tpuEmbedding := [] } :
        LayerCollections).tpuEmbedding.length ≤ 1 ∧
    ∃ colls' api, layerCreateLayerVariables true
        [{ tableName := "a_table",
           loadOpList := [{ kind := OpKind.loadAdagrad, tableName := "a_table",
                            numShards := 1, shardId := 0 }],
           retrieveOpList := [{ kind := OpKind.retrieveAdagrad,
                                tableName := "a_table", numShards := 1,
                                shardId := 0 }] },
         { tableName := "b_table", loadOpList := [], retrieveOpList := [] }]
        { loadOps := [], retrieveOps := [], tpuEmbedding := [] } =
        some (colls', some api) ∧
      colls'.loadOps = [] ++
        [(([{ tableName := "a_table",
              loadOpList := [{ kind := OpKind.loadAdagrad,
                               tableName := "a_table", numShards := 1,
                               shardId := 0 }],
              retrieveOpList := [{ kind := OpKind.retrieveAdagrad,
                                   tableName := "a_table", numShards := 1,
                                   shardId := 0 }] },
            { tableName := "b_table", loadOpList := [],
              retrieveOpList := [] }] : List TableState).map
          TableState.loadOpList).flatten] ∧
      colls'.retrieveOps = [] ++
        [(([{ tableName := "a_table",
              loadOpList := [{ kind := OpKind.loadAdagrad,
                               tableName := "a_table", numShards := 1,
                               shardId := 0 }],
              retrieveOpList := [{ kind := OpKind.retrieveAdagrad,
                                   tableName := "a_table", numShards := 1,
                                   shardId := 0 }] },
            { tableName := "b_table", loadOpList := [],
              retrieveOpList := [] }] : List TableState).map
          TableState.retrieveOpList).flatten] ∧
      colls'.tpuEmbedding.length = 1 ∧
      (∀ e, ({ loadOps := [], retrieveOps := [], tpuEmbedding := [] } :
          LayerCollections).tpuEmbedding = [e] →
        api = e ∧ colls'.tpuEmbedding = [e]) ∧
      (({ loadOps := [], retrieveOps := [], tpuEmbedding := [] } :
          LayerCollections).tpuEmbedding = [] →
        api = newTpuEmbeddingApi
          [{ tableName := "a_table",
             loadOpList := [{ kind := OpKind.loadAdagrad,
                              tableName := "a_table", numShards := 1,
                              shardId := 0 }],
             retrieveOpList := [{ kind := OpKind.retrieveAdagrad,
                                  tableName := "a_table", numShards := 1,
                                  shardId := 0 }] },
           { tableName := "b_table", loadOpList := [],
             retrieveOpList := [] }] ∧
        colls'.tpuEmbedding = [newTpuEmbeddingApi
          [{ tableName := "a_table",
             loadOpList := [{ kind := OpKind.loadAdagrad,
                              tableName := "a_table", numShards := 1,
                              shardId := 0 }],
             retrieveOpList := [{ kind := OpKind.retrieveAdagrad,
                                  tableName := "a_table", numShards := 1,
                                  shardId := 0 }] },
           { tableName := "b_table", loadOpList := [],
             retrieveOpList := [] }]]) :=
  ⟨by decide,
    c7_collection_registration
      [{ tableName := "a_table",
         loadOpList := [{ kind := OpKind.loadAdagrad, tableName := "a_table",
                          numShards := 1, shardId := 0 }],
         retrieveOpList := [{ kind := OpKind.retrieveAdagrad,
                              tableName := "a_table", numShards := 1,
                              shardId := 0 }] },
       { tableName := "b_table", loadOpList := [], retrieveOpList := [] }]
      { loadOps := [], retrieveOps := [], tpuEmbedding := [] }
      (by decide)⟩

/-- C10: for a non-sequence table, `TPUEmbeddingTable.CpuEmbLookup` excludes
the padding id `-1` from the sparse lookup (the result is unchanged under any
change of the embedding weights at `-1`), and explicitly pads the combined
result along dimension 0, so the returned value always has shape
`[batch, 1, embedding_dim]`, also when trailing batch rows hold only padding
ids. -/
theorem c10_cpu_lookup_shape_and_padding (comb : List (List ℚ) → List ℚ)
    (dim : Nat) (wm wm' : Int → List ℚ) (ids : List (List Int))
    (hcomb : ∀ l, l ≠ [] → (comb l).length = dim)
    (hwm : ∀ i : Int, i ≠ -1 → wm i = wm' i) :
    (cpuEmbLookupNonSeq comb dim wm ids).length = ids.length ∧
    (∀ row ∈ cpuEmbLookupNonSeq comb dim wm ids,
      row.length = 1 ∧ ∀ e ∈ row, e.length = dim) ∧
    cpuEmbLookupNonSeq comb dim wm ids = cpuEmbLookupNonSeq comb dim wm' ids := by
  have hspan := lookupSpan_le_length ids
  refine ⟨?_, ?_, ?_⟩
  · simp only [cpuEmbLookupNonSeq, List.length_map, List.length_append,
      List.length_take, List.length_replicate]
    omega
  · intro row hrow
    simp only [cpuEmbLookupNonSeq, List.mem_map] at hrow
    obtain ⟨r, hr, hrow⟩ := hrow
    subst hrow
    refine ⟨rfl, fun e he => ?_⟩
    have he' : e = r := by simpa using he
    subst he'
    rcases List.mem_append.mp hr with hr' | hr'
    · obtain ⟨row', _, hcomb'⟩ := List.mem_map.mp hr'
      rw [← hcomb']
      exact combineRow_length comb dim wm row' hcomb
    · rw [List.eq_of_mem_replicate hr']
      simp
  · simp only [cpuEmbLookupNonSeq]
    congr 1
    congr 1
    apply List.map_congr_left
    intro row _
    exact combineRow_congr comb dim wm wm' row hwm

/-- C10 witness: lookup with weights differing only at the padding id `-1`,
over a batch whose trailing row holds only padding ids; the result has one
row per batch element, each of shape `[1, 1]`, and ignores the weights at
`-1`. -/
theorem c10_cpu_lookup_shape_and_padding_witness :
    (∀ l : List (List ℚ), l ≠ [] →
      ((fun _ => [(1 : ℚ)]) l).length = 1) ∧
    (∀ i : Int, i ≠ -1 →
      (fun j : Int => if j = -1 then [(99 : ℚ)] else [(j : ℚ)]) i =
      (fun j : Int => if j = -1 then [(77 : ℚ)] else [(j : ℚ)]) i) ∧
    ((cpuEmbLookupNonSeq (fun _ => [(1 : ℚ)]) 1
        (fun j : Int => if j = -1 then [(99 : ℚ)] else [(j : ℚ)])
        [[3, -1], [-1, -1]]).length = ([[3, -1], [-1, -1]] : List (List Int)).length ∧
      (∀ row ∈ cpuEmbLookupNonSeq (fun _ => [(1 : ℚ)]) 1
          (fun j : Int => if j = -1 then [(99 : ℚ)] else [(j : ℚ)])
          [[3, -1], [-1, -1]],
        row.length = 1 ∧ ∀ e ∈ row, e.length = 1) ∧
      cpuEmbLookupNonSeq (fun _ => [(1 : ℚ)]) 1
          (fun j : Int => if j = -1 then [(99 : ℚ)] else [(j : ℚ)])
          [[3, -1], [-1, -1]] =
        cpuEmbLookupNonSeq (fun _ => [(1 : ℚ)]) 1
          (fun j : Int => if j = -1 then [(77 : ℚ)] else [(j : ℚ)])
          [[3, -1], [-1, -1]]) :=
  ⟨fun l _ => rfl,
    fun i hi => by simp only [if_neg hi],
    c10_cpu_lookup_shape_and_padding (fun _ => [(1 : ℚ)]) 1
      (fun j : Int => if j = -1 then [(99 : ℚ)] else [(j : ℚ)])
      (fun j : Int => if j = -1 then [(77 : ℚ)] else [(j : ℚ)])
      [[3, -1], [-1, -1]]
      (fun l _ => rfl)
      (fun i hi => by simp only [if_neg hi])⟩

/-- C2: `TPUEmbeddingLayer.EmbLookup` returns the host-resident (CPU) lookup
when `py_utils.use_tpu()` is false and the accelerator-resident (TPU) lookup
when it is true; exactly one path is taken — the result never depends on the
unused path's inputs. -/
theorem c2_emb_lookup_dispatch (useTpu : Bool) (st : TpuLookupState)
    (tables : List CpuTable) (idsMap : String → List (List Int)) :
    (useTpu = false →
      embLookup useTpu st tables idsMap = layerCpuEmbLookup tables idsMap ∧
      ∀ st' : TpuLookupState,
        embLookup useTpu st' tables idsMap = embLookup useTpu st tables idsMap) ∧
    (useTpu = true →
      embLookup useTpu st tables idsMap = tpuEmbLookup st idsMap ∧
      ∀ (tables' : List CpuTable) (idsMap' : String → List (List Int)),
        embLookup useTpu st tables' idsMap' =
          embLookup useTpu st tables idsMap) ∧
    ¬(useTpu = false ∧ useTpu = true) := by
  cases useTpu with
  | false =>
    refine ⟨fun _ => ⟨rfl, fun st' => rfl⟩, fun h => absurd h (by simp), ?_⟩
    rintro ⟨_, h⟩
    cases h
  | true =>
    refine ⟨fun h => absurd h (by simp), fun _ => ⟨rfl, fun tables' idsMap' => rfl⟩, ?_⟩
    rintro ⟨h, _⟩
    cases h

/-- C2 witness: the dispatch at a concrete state, with `use_tpu()` false. -/
theorem c2_emb_lookup_dispatch_witness :
    ((false = false →
      embLookup false { activations := [], sequenceFeatures := [] }
          [{ inputKeys := ["k"], maxSequenceLength := 0,
             comb := fun _ => [0], dim := 1, wm := fun _ => [0] }]
          (fun _ => [[0]]) =
        layerCpuEmbLookup
          [{ inputKeys := ["k"], maxSequenceLength := 0,
             comb := fun _ => [0], dim := 1, wm := fun _ => [0] }]
          (fun _ => [[0]]) ∧
      ∀ st' : TpuLookupState,
        embLookup false st'
            [{ inputKeys := ["k"], maxSequenceLength := 0,
               comb := fun _ => [0], dim := 1, wm := fun _ => [0] }]
            (fun _ => [[0]]) =
          embLookup false { activations := [], sequenceFeatures := [] }
            [{ inputKeys := ["k"], maxSequenceLength := 0,
               comb := fun _ => [0], dim := 1, wm := fun _ => [0] }]
            (fun _ => [[0]])) ∧
    (false = true →
      embLookup false { activations := [], sequenceFeatures := [] }
          [{ inputKeys := ["k"], maxSequenceLength := 0,
             comb := fun _ => [0], dim := 1, wm := fun _ => [0] }]
          (fun _ => [[0]]) =
        tpuEmbLookup { activations := [], sequenceFeatures := [] }
          (fun _ => [[0]]) ∧
      ∀ (tables' : List CpuTable) (idsMap' : String → List (List Int)),
        embLookup false { activations := [], sequenceFeatures := [] }
            tables' idsMap' =
          embLookup false { activations := [], sequenceFeatures := [] }
            [{ inputKeys := ["k"], maxSequenceLength := 0,
               comb := fun _ => [0], dim := 1, wm := fun _ => [0] }]
            (fun _ => [[0]])) ∧
    ¬(false = false ∧ false = true)) :=
  c2_emb_lookup_dispatch false { activations := [], sequenceFeatures := [] }
    [{ inputKeys := ["k"], maxSequenceLength := 0,
       comb := fun _ => [0], dim := 1, wm := fun _ => [0] }]
    (fun _ => [[0]])

/-- C5: `RandomChoicePreprocessor` (modelled from the spec, checked against
its test): `TransformShapes` fails with `ValueError` exactly when two
subprocessors produce differing shape maps (differing shapes or key sets)
and returns the common map on agreement, `TransformDTypes` likewise for
dtype maps; in the test's constant-value configuration the output key maps
to a scalar shape and `int64`, and the mismatch configurations all fail;
`TransformFeatures` applies the subprocessor whose cumulative-weight
interval contains the uniform draw, so each subprocessor is selected with
probability proportional to its weight. -/
theorem c5_random_choice_dispatch :
    (∀ (subs : List (ShapeMap → ShapeMap)) (shapes : ShapeMap),
      ((∃ msg, rcTransformShapes subs shapes = Except.error msg) ↔
        ∃ a ∈ subs.map (fun f => f shapes), ∃ b ∈ subs.map (fun f => f shapes),
          a ≠ b) ∧
      (∀ r, subs ≠ [] → (∀ b ∈ subs.map (fun f => f shapes), b = r) →
        rcTransformShapes subs shapes = Except.ok r)) ∧
    (∀ (subs : List (DTypeMap → DTypeMap)) (dtypes : DTypeMap),
      ((∃ msg, rcTransformDTypes subs dtypes = Except.error msg) ↔
        ∃ a ∈ subs.map (fun f => f dtypes), ∃ b ∈ subs.map (fun f => f dtypes),
          a ≠ b) ∧
      (∀ r, subs ≠ [] → (∀ b ∈ subs.map (fun f => f dtypes), b = r) →
        rcTransformDTypes subs dtypes = Except.ok r)) ∧
    rcTransformShapes
      [constantTransformShapes { constantValue := PyConst.int 1, keyName := "value" },
       constantTransformShapes { constantValue := PyConst.int 2, keyName := "value" },
       constantTransformShapes { constantValue := PyConst.int 3, keyName := "value" },
       constantTransformShapes { constantValue := PyConst.int 4, keyName := "value" }]
      [("weights", [4])] = Except.ok [("weights", [4]), ("value", [])] ∧
    rcTransformDTypes
      [constantTransformDTypes { constantValue := PyConst.int 1, keyName := "value" },
       constantTransformDTypes { constantValue := PyConst.int 2, keyName := "value" },
       constantTransformDTypes { constantValue := PyConst.int 3, keyName := "value" },
       constantTransformDTypes { constantValue := PyConst.int 4, keyName := "value" }]
      [("weights", "float32")] =
      Except.ok [("weights", "float32"), ("value", "int64")] ∧
    rcTransformShapes
      [constantTransformShapes { constantValue := PyConst.int 1, keyName := "value" },
       constantTransformShapes { constantValue := PyConst.intList [2, 3], keyName := "value" }]
      [("weights", [2])] =
      Except.error "Subprocessors must produce the same transformed values." ∧
    rcTransformShapes
      [constantTransformShapes { constantValue := PyConst.int 1, keyName := "foo" },
       constantTransformShapes { constantValue := PyConst.int 2, keyName := "value" }]
      [("weights", [2])] =
      Except.error "Subprocessors must produce the same transformed values." ∧
    rcTransformDTypes
      [constantTransformDTypes { constantValue := PyConst.int 1, keyName := "value" },
       constantTransformDTypes { constantValue := PyConst.float 2, keyName := "value" }]
      [("weights", "float32")] =
      Except.error "Subprocessors must produce the same transformed values." ∧
    (∀ (weights : List ℚ) (u : ℚ), (∀ w ∈ weights, 0 ≤ w) → 0 ≤ u →
      u < partialWeightSum weights weights.length →
      partialWeightSum weights (selectIndex weights u) ≤ u ∧
      u < partialWeightSum weights (selectIndex weights u + 1) ∧
      selectIndex weights u < weights.length) ∧
    (∀ (α : Type) (fns : List (α → α)) (weights : List ℚ) (u : ℚ)
        (features : α) (f : α → α),
      fns.get? (selectIndex weights u) = some f →
      rcTransformFeatures fns weights u features = f features) := by
  refine ⟨?_, ?_, rfl, rfl, rfl, rfl, rfl, selectIndex_interval, ?_⟩
  · intro subs shapes
    refine ⟨?_, fun r hne hall => ?_⟩
    · exact rcCheckAllEqual_error_iff (subs.map fun f => f shapes) shapes
    · exact rcCheckAllEqual_ok (subs.map fun f => f shapes) shapes r
        (by simpa using hne) hall
  · intro subs dtypes
    refine ⟨?_, fun r hne hall => ?_⟩
    · exact rcCheckAllEqual_error_iff (subs.map fun f => f dtypes) dtypes
    · exact rcCheckAllEqual_ok (subs.map fun f => f dtypes) dtypes r
        (by simpa using hne) hall
  · intro α fns weights u features f hf
    simp only [rcTransformFeatures, hf]

/-- C5 witness: the weighted selection over the test's weight tensor
`[1, 2, 3, 4]` at the draw `3/2`, which falls inside the second
subprocessor's cumulative interval `[1, 3)`. -/
theorem c5_random_choice_dispatch_witness :
    (∀ w ∈ ([1, 2, 3, 4] : List ℚ), 0 ≤ w) ∧ (0 : ℚ) ≤ 3 / 2 ∧
    (3 / 2 : ℚ) <
      partialWeightSum [1, 2, 3, 4] ([1, 2, 3, 4] : List ℚ).length ∧
    (partialWeightSum [1, 2, 3, 4] (selectIndex [1, 2, 3, 4] (3 / 2)) ≤ 3 / 2 ∧
      (3 / 2 : ℚ) <
        partialWeightSum [1, 2, 3, 4] (selectIndex [1, 2, 3, 4] (3 / 2) + 1) ∧
      selectIndex [1, 2, 3, 4] (3 / 2) < ([1, 2, 3, 4] : List ℚ).length) :=
  ⟨by decide, by norm_num, by norm_num [partialWeightSum],
    c5_random_choice_dispatch.2.2.2.2.2.2.2.1 [1, 2, 3, 4] (3 / 2)
      (by decide) (by norm_num) (by norm_num [partialWeightSum])⟩

end Lingvo
